import Mathlib

/-!
Verification of the relationship-network page of the
`northern-wei-timeline-network` repository.

The component under study fetches a subject person, their relationship
list and the full roster of persons, and projects them into a node list,
an edge list and a sidebar list of related people.  The projection and
the click/navigation handlers are embedded below as pure functions,
directly following the source (`NetworkPage`).
-/

/-- A person record.  Only the fields used by the projection are kept:
identifier, display name and the optional list of alternate names. -/
structure Person where
  id : String
  name : String
  «alias» : Option (List String)
  deriving Repr, DecidableEq

/-- A relationship record: identifier, the two endpoint person
identifiers, and a human-readable description. -/
structure Relationship where
  id : String
  person1Id : String
  person2Id : String
  description : String
  deriving Repr, DecidableEq

/-- A node of the rendered graph, as handed to the visualization
library. -/
structure NetworkNode where
  id : String
  label : String
  title : String
  color : String
  group : String
  deriving Repr, DecidableEq

/-- An edge of the rendered graph, as handed to the visualization
library. -/
structure NetworkEdge where
  id : String
  «from» : String
  «to» : String
  label : String
  color : String
  arrows : String
  deriving Repr, DecidableEq

/-- A sidebar entry: the relationship paired with the counterpart
person looked up in the roster (`none` when the lookup failed; such
entries are filtered out). -/
structure RelatedEntry where
  relationship : Relationship
  person : Option Person
  deriving Repr, DecidableEq

/-- `person.alias?.[0] || ""` from the source: the first alternate name,
or the empty string when the list is absent or empty. -/
def firstAlias (p : Person) : String :=
  ((p.«alias»).getD []).headD ""

/-- Counterpart resolution: `rel.person1Id === person.id ? rel.person2Id
: rel.person1Id`. -/
def targetPersonId (person : Person) (rel : Relationship) : String :=
  if rel.person1Id = person.id then rel.person2Id else rel.person1Id

/-- Roster lookup: `allPeople.find(p => p.id === targetPersonId)`. -/
def findPerson (allPeople : List Person) (pid : String) : Option Person :=
  allPeople.find? (fun p => p.id == pid)

/-- The seed node for the subject (color `#ff6b6b`, group `center`). -/
def centerNode (person : Person) : NetworkNode :=
  { id := person.id, label := person.name, title := firstAlias person,
    color := "#ff6b6b", group := "center" }

/-- The node pushed for a found counterpart (color `#4ecdc4`, group
`related`). -/
def relatedNode (targetPerson : Person) : NetworkNode :=
  { id := targetPerson.id, label := targetPerson.name,
    title := firstAlias targetPerson, color := "#4ecdc4", group := "related" }

/-- The node list: seeded with the subject node, then for each
relationship in order, the counterpart is resolved and looked up in the
roster, and if found a `related` node is appended (a `forEach` with
`push` in the source, modelled as a left fold on an accumulator). -/
def nodes (person : Person) (relationships : List Relationship)
    (allPeople : List Person) : List NetworkNode :=
  relationships.foldl
    (fun acc rel =>
      match findPerson allPeople (targetPersonId person rel) with
      | some targetPerson => acc ++ [relatedNode targetPerson]
      | none => acc)
    [centerNode person]

/-- The edge built from one relationship: identifier of the
relationship, from the subject to the resolved counterpart identifier,
labeled with the description. -/
def edgeFor (person : Person) (rel : Relationship) : NetworkEdge :=
  { id := rel.id, «from» := person.id, «to» := targetPersonId person rel,
    label := rel.description, color := "#667eea", arrows := "to" }

/-- The edge list: `relationships.map(...)` — one edge per relationship,
with no roster lookup. -/
def edges (person : Person) (relationships : List Relationship) :
    List NetworkEdge :=
  relationships.map (edgeFor person)

/-- The sidebar list: map each relationship to a pair of the
relationship and the roster lookup of its counterpart, then filter out
the pairs whose lookup failed (`.map(...).filter(item => item.person)`). -/
def getRelatedPeople (person : Person) (relationships : List Relationship)
    (allPeople : List Person) : List RelatedEntry :=
  (relationships.map (fun rel =>
    { relationship := rel,
      person := findPerson allPeople (targetPersonId person rel) })).filter
    (fun item => item.person.isSome)

/-- The graph click handler: when at least one node is selected the
first one is taken, and navigation to `/person/<nodeId>` is requested
unless it is the subject's own node.  The result is the list of
navigation requests issued. -/
def nodeClickNavigations (person : Person) (clickedNodes : List String) :
    List String :=
  match clickedNodes with
  | [] => []
  | nodeId :: _ => if nodeId ≠ person.id then ["/person/" ++ nodeId] else []

/-- The sidebar click handler: navigates to `/person/<targetId>`
unconditionally. -/
def handlePersonClick (targetId : String) : List String :=
  ["/person/" ++ targetId]

/-- The component's transient view state: subject, relationships,
roster, loading flag and error message. -/
structure LoaderState where
  person : Option Person
  relationships : List Relationship
  allPeople : List Person
  loading : Bool
  error : Option String
  deriving Repr, DecidableEq

/-- The `useState` initial values: no subject, empty lists, loading,
no error. -/
def initialState : LoaderState :=
  { person := none, relationships := [], allPeople := [],
    loading := true, error := none }

/-- The joined outcome of the three concurrent fetches: either a
rejection, or the triple (subject-or-null, relationships, roster). -/
def FetchResult : Type :=
  Except String (Option Person × List Relationship × List Person)

/-- `loadData` from the source: sets loading and clears the error; on a
rejection records the generic failure message; on success with a null
subject records the not-found message and returns without applying the
relationship and roster results; otherwise applies all three results.
The `finally` clause clears the loading flag in every case. -/
def loadData (fetchResult : FetchResult) (s : LoaderState) : LoaderState :=
  let s1 : LoaderState := { s with loading := true, error := none }
  match fetchResult with
  | Except.error _ =>
      { s1 with error := some "加载数据失败", loading := false }
  | Except.ok (personData, relationshipsData, allPeopleData) =>
      match personData with
      | none => { s1 with error := some "未找到该人物信息", loading := false }
      | some p =>
          { s1 with
            person := some p
            relationships := relationshipsData
            allPeople := allPeopleData
            loading := false }

/-- What the component renders: the spinner, the error card, or the
graph with its sidebar. -/
inductive View where
  | loadingView : View
  | errorView : String → View
  | readyView : List NetworkNode → List NetworkEdge → List RelatedEntry → View
  deriving Repr, DecidableEq

/-- The render branch structure of the source: the loading state first,
then `error || !person` (with the not-found message as fallback text),
otherwise the graph and sidebar derived from the loaded data. -/
def render (s : LoaderState) : View :=
  if s.loading then View.loadingView
  else
    match s.error, s.person with
    | some e, _ => View.errorView e
    | none, none => View.errorView "未找到该人物信息"
    | none, some p =>
        View.readyView (nodes p s.relationships s.allPeople)
          (edges p s.relationships)
          (getRelatedPeople p s.relationships s.allPeople)

/-- The optional node contributed by one relationship: the counterpart
lookup mapped to a `related` node. -/
def relatedNodeFor (person : Person) (allPeople : List Person)
    (rel : Relationship) : Option NetworkNode :=
  (findPerson allPeople (targetPersonId person rel)).map relatedNode

/-- The optional sidebar entry contributed by one relationship. -/
def entryFor (person : Person) (allPeople : List Person)
    (rel : Relationship) : Option RelatedEntry :=
  (findPerson allPeople (targetPersonId person rel)).map
    (fun tp => { relationship := rel, person := some tp })

/-- Concrete data from the specification's worked scenario. -/
def alice : Person := { id := "P1", name := "Alice", «alias» := none }

def bob : Person := { id := "P2", name := "Bob", «alias» := none }

def carol : Person := { id := "P3", name := "Carol", «alias» := none }

def r1 : Relationship :=
  { id := "R1", person1Id := "P1", person2Id := "P2", description := "friend" }

def r2 : Relationship :=
  { id := "R2", person1Id := "P1", person2Id := "P2", description := "rival" }

lemma findPerson_id (allPeople : List Person) (pid : String) (tp : Person)
    (h : findPerson allPeople pid = some tp) : tp.id = pid := by
  have hp := List.find?_some h
  simpa [beq_iff_eq] using hp

lemma nodes_go (person : Person) (allPeople : List Person) :
    ∀ (rels : List Relationship) (acc : List NetworkNode),
      rels.foldl
        (fun acc rel =>
          match findPerson allPeople (targetPersonId person rel) with
          | some targetPerson => acc ++ [relatedNode targetPerson]
          | none => acc)
        acc
      = acc ++ rels.filterMap (relatedNodeFor person allPeople)
  | [], acc => by simp
  | rel :: rels, acc => by
    rw [List.foldl_cons, List.filterMap_cons]
    cases h : findPerson allPeople (targetPersonId person rel) with
    | none =>
        simp only [h, relatedNodeFor, Option.map_none']
        exact nodes_go person allPeople rels acc
    | some tp =>
        simp only [h, relatedNodeFor, Option.map_some']
        rw [nodes_go person allPeople rels (acc ++ [relatedNode tp])]
        simp

lemma nodes_eq (person : Person) (rels : List Relationship)
    (allPeople : List Person) :
    nodes person rels allPeople =
      centerNode person :: rels.filterMap (relatedNodeFor person allPeople) := by
  have h := nodes_go person allPeople rels [centerNode person]
  simpa [nodes] using h

lemma relatedPeople_eq (person : Person) (rels : List Relationship)
    (allPeople : List Person) :
    getRelatedPeople person rels allPeople =
      rels.filterMap (entryFor person allPeople) := by
  induction rels with
  | nil => rfl
  | cons rel rels ih =>
      simp only [getRelatedPeople, List.map_cons, List.filter_cons,
        List.filterMap_cons] at *
      cases h : findPerson allPeople (targetPersonId person rel) with
      | none => simpa [entryFor, h] using ih
      | some tp => simpa [entryFor, h] using ih

lemma related_group (person : Person) (allPeople : List Person)
    (rels : List Relationship) (n : NetworkNode)
    (hn : n ∈ rels.filterMap (relatedNodeFor person allPeople)) :
    n.group = "related" := by
  rcases List.mem_filterMap.mp hn with ⟨rel, -, hmap⟩
  rcases Option.map_eq_some'.mp hmap with ⟨tp, -, rfl⟩
  rfl

/-- C10: for every input, the produced edge list has exactly the same
length as the input relationship list — one edge per relationship,
regardless of whether the counterpart identifier is in the roster. -/
theorem edges_length_eq_relationships_length (person : Person)
    (rels : List Relationship) :
    (edges person rels).length = rels.length := by
  simp [edges]

/-- C8: the projection is deterministic: running it twice on the same
(subject, relationships, roster) triple yields identical node lists,
identical edge lists, and identical sidebar lists. -/
theorem projection_deterministic (person : Person) (rels : List Relationship)
    (allPeople : List Person) :
    nodes person rels allPeople = nodes person rels allPeople ∧
    edges person rels = edges person rels ∧
    getRelatedPeople person rels allPeople =
      getRelatedPeople person rels allPeople :=
  ⟨rfl, rfl, rfl⟩

/-- C7: the produced orderings: the node list is the subject's node
first, then one node per relationship in input order for relationships
whose counterpart is found in the roster; the edge list maps the input
relationship order one-to-one; the sidebar list keeps the input
relationship order after filtering out roster-absent counterparts. -/
theorem projection_ordering (person : Person) (rels : List Relationship)
    (allPeople : List Person) :
    nodes person rels allPeople =
      centerNode person :: rels.filterMap (relatedNodeFor person allPeople) ∧
    edges person rels = rels.map (edgeFor person) ∧
    getRelatedPeople person rels allPeople =
      rels.filterMap (entryFor person allPeople) :=
  ⟨nodes_eq person rels allPeople, rfl, relatedPeople_eq person rels allPeople⟩

/-- C5: when the subject fetch resolves to null, the loader records the
"person not found" message (not the hard-error message), leaves the
already-fetched relationships and roster unapplied, and the page renders
the error view — no graph or sidebar for that identifier. -/
theorem subject_null_not_found (rels : List Relationship)
    (roster : List Person) :
    (loadData (Except.ok (none, rels, roster)) initialState).error =
      some "未找到该人物信息" ∧
    (loadData (Except.ok (none, rels, roster)) initialState).person = none ∧
    (loadData (Except.ok (none, rels, roster)) initialState).relationships
      = [] ∧
    (loadData (Except.ok (none, rels, roster)) initialState).allPeople = [] ∧
    (loadData (Except.ok (none, rels, roster)) initialState).loading
      = false ∧
    render (loadData (Except.ok (none, rels, roster)) initialState) =
      View.errorView "未找到该人物信息" :=
  ⟨rfl, rfl, rfl, rfl, rfl, rfl⟩

/-- C1 (counterexample): with the spec's scenario where the roster omits
`P2`, the counterpart of `R1` is absent from the roster, no node and no
sidebar entry are produced for it, yet an edge IS produced — refuting
the claim that no corresponding edge is produced. -/
theorem roster_absent_counterexample :
    findPerson [alice] (targetPersonId alice r1) = none ∧
    edges alice [r1] = [edgeFor alice r1] ∧
    (edgeFor alice r1).id = r1.id ∧
    nodes alice [r1] [alice] = [centerNode alice] ∧
    getRelatedPeople alice [r1] [alice] = [] :=
  ⟨rfl, rfl, rfl, rfl, rfl⟩

/-- C1 (amended): for every relationship whose counterpart identifier is
absent from the roster, the projection produces no corresponding node
and no corresponding sidebar entry, but it still produces the
corresponding edge (one per relationship, pointing at the absent
identifier). -/
theorem roster_absent_no_node_no_sidebar_but_edge (person : Person)
    (rels : List Relationship) (allPeople : List Person) (rel : Relationship)
    (hrel : rel ∈ rels)
    (habsent : findPerson allPeople (targetPersonId person rel) = none) :
    (∀ n ∈ nodes person rels allPeople, n.group = "related" →
        n.id ≠ targetPersonId person rel) ∧
    (∀ entry ∈ getRelatedPeople person rels allPeople,
        entry.relationship ≠ rel) ∧
    edgeFor person rel ∈ edges person rels := by
  refine ⟨?_, ?_, List.mem_map_of_mem _ hrel⟩
  · intro n hn hgroup heq
    rw [nodes_eq] at hn
    rcases List.mem_cons.mp hn with rfl | hm
    · simp [centerNode] at hgroup
    · rcases List.mem_filterMap.mp hm with ⟨rel2, -, hmap⟩
      rcases Option.map_eq_some'.mp hmap with ⟨tp, hfind, rfl⟩
      have hid : tp.id = targetPersonId person rel2 :=
        findPerson_id allPeople _ tp hfind
      have hsame : targetPersonId person rel2 = targetPersonId person rel := by
        rw [← hid]; exact heq
      rw [hsame] at hfind
      rw [habsent] at hfind
      exact Option.noConfusion hfind
  · intro entry hentry hrel2
    rw [relatedPeople_eq] at hentry
    rcases List.mem_filterMap.mp hentry with ⟨rel2, -, hmap⟩
    rcases Option.map_eq_some'.mp hmap with ⟨tp, hfind, rfl⟩
    simp only at hrel2
    rw [hrel2] at hfind
    rw [habsent] at hfind
    exact Option.noConfusion hfind

/-- C1 (witness): the amended statement at the spec's concrete
scenario. -/
theorem roster_absent_amended_witness :
    r1 ∈ [r1] ∧
    findPerson [alice] (targetPersonId alice r1) = none ∧
    ((∀ n ∈ nodes alice [r1] [alice], n.group = "related" →
        n.id ≠ targetPersonId alice r1) ∧
      (∀ entry ∈ getRelatedPeople alice [r1] [alice],
        entry.relationship ≠ r1) ∧
      edgeFor alice r1 ∈ edges alice [r1]) :=
  ⟨by decide, rfl,
    roster_absent_no_node_no_sidebar_but_edge alice [r1] [alice] r1
      (by decide) rfl⟩

/-- C2 (counterexample): with two relationships sharing the counterpart
`P2`, the node list contains two nodes for Bob — a Person appears as
more than one node, refuting uniqueness. -/
theorem duplicate_nodes_counterexample :
    nodes alice [r1, r2] [alice, bob] =
      [centerNode alice, relatedNode bob, relatedNode bob] ∧
    ((nodes alice [r1, r2] [alice, bob]).filter
        (fun n => n.id == bob.id)).length = 2 :=
  ⟨rfl, rfl⟩

lemma filterMap_length_eq (person : Person) (allPeople : List Person) :
    ∀ rels : List Relationship,
      (rels.filterMap (relatedNodeFor person allPeople)).length =
      (rels.filter (fun rel =>
        (findPerson allPeople (targetPersonId person rel)).isSome)).length
  | [] => rfl
  | rel :: rels => by
      rw [List.filterMap_cons, List.filter_cons]
      cases h : findPerson allPeople (targetPersonId person rel) with
      | none =>
          simp [relatedNodeFor, h, filterMap_length_eq person allPeople rels]
      | some tp =>
          simp [relatedNodeFor, h, filterMap_length_eq person allPeople rels]

/-- C2 (amended): the node list is not deduplicated: it always has
exactly one node (the center) plus one `related` node per relationship
whose counterpart is found in the roster, so a person reachable via
several relationships appears once per such relationship. -/
theorem nodes_one_per_found_relationship (person : Person)
    (rels : List Relationship) (allPeople : List Person) :
    (nodes person rels allPeople).length =
      1 + (rels.filter (fun rel =>
        (findPerson allPeople (targetPersonId person rel)).isSome)).length := by
  rw [nodes_eq]
  simp [filterMap_length_eq person allPeople rels, Nat.add_comm]

/-- C3: for every subject present in the roster and every relationship
list, the node list contains exactly one node classified `center`, that
node's identifier is the subject's, and every other node is classified
`related`. -/
theorem center_node_unique (person : Person) (rels : List Relationship)
    (allPeople : List Person)
    (hroster : ∃ p ∈ allPeople, p.id = person.id) :
    ((nodes person rels allPeople).filter
        (fun n => n.group == "center")).length = 1 ∧
    (∀ n ∈ nodes person rels allPeople, n.group = "center" →
        n.id = person.id) ∧
    (∀ n ∈ nodes person rels allPeople,
        n.group = "center" ∨ n.group = "related") := by
  rw [nodes_eq]
  have htail : (rels.filterMap (relatedNodeFor person allPeople)).filter
      (fun n => n.group == "center") = [] := by
    rw [List.filter_eq_nil_iff]
    intro n hn
    simp [related_group person allPeople rels n hn]
  refine ⟨?_, ?_, ?_⟩
  · rw [List.filter_cons]
    simp [centerNode, htail]
  · intro n hn hg
    rcases List.mem_cons.mp hn with rfl | hm
    · rfl
    · have hr := related_group person allPeople rels n hm
      rw [hg] at hr
      exact absurd hr (by decide)
  · intro n hn
    rcases List.mem_cons.mp hn with rfl | hm
    · exact Or.inl rfl
    · exact Or.inr (related_group person allPeople rels n hm)

/-- C3 (witness): the center-uniqueness statement at the spec's
concrete scenario. -/
theorem center_node_unique_witness :
    (∃ p ∈ [alice, bob], p.id = alice.id) ∧
    (((nodes alice [r1] [alice, bob]).filter
        (fun n => n.group == "center")).length = 1 ∧
      (∀ n ∈ nodes alice [r1] [alice, bob], n.group = "center" →
          n.id = alice.id) ∧
      (∀ n ∈ nodes alice [r1] [alice, bob],
          n.group = "center" ∨ n.group = "related")) :=
  ⟨by decide, center_node_unique alice [r1] [alice, bob] (by decide)⟩

/-- C4: for every relationship whose counterpart is found in the roster,
the projection produces an edge with the relationship's identifier,
directed from the subject's identifier to the counterpart's identifier,
labeled with the relationship's description; and the edges carrying this
relationship's identifier are in one-to-one correspondence with the
input occurrences of that identifier (exactly one per relationship). -/
theorem roster_present_edge (person : Person) (rels : List Relationship)
    (allPeople : List Person) (rel : Relationship) (tp : Person)
    (hrel : rel ∈ rels)
    (hfound : findPerson allPeople (targetPersonId person rel) = some tp) :
    edgeFor person rel ∈ edges person rels ∧
    (edgeFor person rel).id = rel.id ∧
    (edgeFor person rel).«from» = person.id ∧
    (edgeFor person rel).«to» = tp.id ∧
    (edgeFor person rel).label = rel.description ∧
    (edges person rels).countP (fun e => e.id == rel.id) =
      rels.countP (fun r => r.id == rel.id) := by
  refine ⟨List.mem_map_of_mem _ hrel, rfl, rfl, ?_, rfl, ?_⟩
  · exact (findPerson_id allPeople _ tp hfound).symm
  · rw [edges, List.countP_map]
    rfl

/-- C4 (witness): the per-relationship edge statement at the spec's
concrete scenario. -/
theorem roster_present_edge_witness :
    r1 ∈ [r1] ∧
    findPerson [alice, bob] (targetPersonId alice r1) = some bob ∧
    (edgeFor alice r1 ∈ edges alice [r1] ∧
      (edgeFor alice r1).id = r1.id ∧
      (edgeFor alice r1).«from» = alice.id ∧
      (edgeFor alice r1).«to» = bob.id ∧
      (edgeFor alice r1).label = r1.description ∧
      (edges alice [r1]).countP (fun e => e.id == r1.id) =
        ([r1] : List Relationship).countP (fun r => r.id == r1.id)) :=
  ⟨by decide, rfl,
    roster_present_edge alice [r1] [alice, bob] r1 bob (by decide) rfl⟩

/-- C6: a click on a node other than the subject's requests navigation
to that node's identifier; a click on the subject's own node requests
none; a click on a sidebar entry requests exactly one navigation to that
entry's counterpart identifier unconditionally. -/
theorem click_navigation_contract (person : Person) (nodeId : String)
    (rest : List String) (targetId : String) (hne : nodeId ≠ person.id) :
    nodeClickNavigations person (nodeId :: rest) = ["/person/" ++ nodeId] ∧
    nodeClickNavigations person (person.id :: rest) = [] ∧
    handlePersonClick targetId = ["/person/" ++ targetId] ∧
    (handlePersonClick targetId).length = 1 := by
  refine ⟨?_, ?_, rfl, rfl⟩
  · simp [nodeClickNavigations, hne]
  · simp [nodeClickNavigations]

/-- C6 (witness): the click contract at concrete identifiers. -/
theorem click_navigation_contract_witness :
    ("P2" ≠ alice.id) ∧
    (nodeClickNavigations alice ("P2" :: []) = ["/person/" ++ "P2"] ∧
      nodeClickNavigations alice (alice.id :: []) = [] ∧
      handlePersonClick "P9" = ["/person/" ++ "P9"] ∧
      (handlePersonClick "P9").length = 1) :=
  ⟨by decide, click_navigation_contract alice "P2" [] "P9" (by decide)⟩

/-- C9: for a relationship neither of whose endpoints is the subject,
counterpart resolution returns `person1Id`, so the edge points at
person1, and when person1 is in the roster the relationship contributes
person1's node and sidebar entry. -/
theorem neither_endpoint_person1_side (person : Person) (rel : Relationship)
    (rels : List Relationship) (allPeople : List Person) (tp : Person)
    (h1 : rel.person1Id ≠ person.id) (h2 : rel.person2Id ≠ person.id)
    (hrel : rel ∈ rels)
    (hfound : findPerson allPeople rel.person1Id = some tp) :
    targetPersonId person rel = rel.person1Id ∧
    (edgeFor person rel).«to» = rel.person1Id ∧
    edgeFor person rel ∈ edges person rels ∧
    relatedNode tp ∈ nodes person rels allPeople ∧
    ({ relationship := rel, person := some tp } : RelatedEntry) ∈
      getRelatedPeople person rels allPeople := by
  have ht : targetPersonId person rel = rel.person1Id := by
    simp [targetPersonId, h1]
  refine ⟨ht, ht, List.mem_map_of_mem _ hrel, ?_, ?_⟩
  · rw [nodes_eq]
    refine List.mem_cons_of_mem _ (List.mem_filterMap.mpr ⟨rel, hrel, ?_⟩)
    simp [relatedNodeFor, ht, hfound]
  · rw [relatedPeople_eq]
    refine List.mem_filterMap.mpr ⟨rel, hrel, ?_⟩
    simp [entryFor, ht, hfound]

/-- C9 (witness): the person1-side attribution with subject Carol and a
relationship between Alice and Bob. -/
theorem neither_endpoint_person1_side_witness :
    (r1.person1Id ≠ carol.id) ∧ (r1.person2Id ≠ carol.id) ∧ r1 ∈ [r1] ∧
    findPerson [alice, bob] r1.person1Id = some alice ∧
    (targetPersonId carol r1 = r1.person1Id ∧
      (edgeFor carol r1).«to» = r1.person1Id ∧
      edgeFor carol r1 ∈ edges carol [r1] ∧
      relatedNode alice ∈ nodes carol [r1] [alice, bob] ∧
      ({ relationship := r1, person := some alice } : RelatedEntry) ∈
        getRelatedPeople carol [r1] [alice, bob]) :=
  ⟨by decide, by decide, by decide, rfl,
    neither_endpoint_person1_side carol r1 [r1] [alice, bob] alice
      (by decide) (by decide) (by decide) rfl⟩
